import Mathlib

set_option maxHeartbeats 1000000

/-!
Verification of the snapdom asset-resolution and capture pipeline.

The definitions below are a shallow embedding of the JavaScript sources:
* `src/core/cache.js` (the three-namespace resource cache, as used by the
  resolvers),
* the image resolver `fetchImage` and the background-entry resolver
  `inlineSingleBackgroundEntry` (src/modules helpers file),
* the plugin registry `use` / `normalizePlugins` / `runHook`
  (src/core/plugins.js),
* the capture orchestrator `captureDOM` (src/core/capture.js).

Browser effects (network fetches, image-element loading, decoding, DOM
mutation) are modelled by explicit environment records whose fields give the
outcome of each external effect, and by explicit traces of the I/O actions a
run performs.  Machine state threaded through the code (the process-wide
cache, the document's sandbox element) is passed explicitly.
-/

/-! ### Executable string predicates

The built-in `String.startsWith`/`endsWith`/`splitOn` do not reduce inside
the kernel, so the JavaScript string tests are modelled on the underlying
character lists, which do. -/

/-- `String.prototype.startsWith`. -/
def strStartsWith (s p : String) : Bool :=
  p.data.isPrefixOf s.data

/-- `String.prototype.endsWith`. -/
def strEndsWith (s p : String) : Bool :=
  p.data.reverse.isPrefixOf s.data.reverse

/-- Substring containment over character lists. -/
def charsContain : List Char → List Char → Bool
  | [], pat => pat.isEmpty
  | l@(_ :: t), pat => pat.isPrefixOf l || charsContain t pat

/-- Substring containment (`String.prototype.includes`). -/
def strContains (s pat : String) : Bool :=
  charsContain s.data pat.data

/-- `String.prototype.toLowerCase` (ASCII, which covers the patterns the
source matches case-insensitively). -/
def strToLower (s : String) : String :=
  String.mk (s.data.map Char.toLower)

/-- Drop the final character (used for `replace(/\/$/, "")`). -/
def strDropLast (s : String) : String :=
  String.mk s.data.dropLast

/-! ### Association maps (JavaScript `Map` keyed by strings) -/

/-- Lookup-based model of `Map.prototype.get`/`has`: first binding wins
(keys are kept unique by `setA`). -/
def getA {β : Type} (l : List (String × β)) (k : String) : Option β :=
  List.lookup k l

/-- `Map.prototype.set`: overwrite the binding in place when the key is
present, append a fresh binding otherwise. -/
def setA {β : Type} (l : List (String × β)) (k : String) (v : β) :
    List (String × β) :=
  if (getA l k).isSome then
    l.map (fun kv => if kv.1 = k then (k, v) else kv)
  else
    l ++ [(k, v)]

/-- `Map.prototype.has`. -/
def hasA {β : Type} (l : List (String × β)) (k : String) : Bool :=
  (getA l k).isSome

/-- Reading a key just written returns the written value (replace case). -/
theorem getA_replace_self {β : Type} (l : List (String × β)) (k : String)
    (v : β) (h : (getA l k).isSome) :
    getA (l.map (fun kv => if kv.1 = k then (k, v) else kv)) k = some v := by
  induction l with
  | nil => simp [getA, List.lookup] at h
  | cons a t ih =>
    obtain ⟨a1, a2⟩ := a
    by_cases hk : a1 = k
    · subst hk
      simp [getA, List.lookup_cons]
    · have hne : (k == a1) = false := by
        exact beq_false_of_ne (fun hkk => hk hkk.symm)
      have h' : (getA t k).isSome := by
        simpa [getA, List.lookup_cons, hne] using h
      simpa [getA, List.map_cons, hk, List.lookup_cons, hne] using ih h'

/-- Looking a key up past bindings that do not contain it. -/
theorem getA_append_of_none {β : Type} (l l2 : List (String × β))
    (k : String) (h : getA l k = none) :
    getA (l ++ l2) k = getA l2 k := by
  induction l with
  | nil => simp [getA]
  | cons a t ih =>
    obtain ⟨a1, a2⟩ := a
    by_cases hk : k = a1
    · subst hk
      simp [getA, List.lookup_cons] at h
    · have hne : (k == a1) = false := beq_false_of_ne hk
      have h' : getA t k = none := by
        simpa [getA, List.lookup_cons, hne] using h
      simpa [getA, List.lookup_cons, hne] using ih h'

/-- Reading a key just written with `setA` returns the written value. -/
theorem getA_setA_self {β : Type} (l : List (String × β)) (k : String)
    (v : β) : getA (setA l k v) k = some v := by
  unfold setA
  by_cases h : (getA l k).isSome
  · simpa [h] using getA_replace_self l k v h
  · have hn : getA l k = none := by
      cases hx : getA l k with
      | none => rfl
      | some w => rw [hx] at h; simp at h
    rw [if_neg h, getA_append_of_none l [(k, v)] k hn]
    simp [getA, List.lookup_cons]

/-! ### The resource cache (`src/core/cache.js`)

Three independent namespaces, as consumed by the resolvers; `cache.reset()`
clears all three. -/

structure Cache where
  image : List (String × String)
  background : List (String × String)
  baseStyle : List (String × String)
deriving Repr, DecidableEq

def Cache.empty : Cache := ⟨[], [], []⟩

/-! ### Image resolver (`fetchImage`) -/

/-- The distinct errors `fetchImage` can reject with:
`timeout` is the message built by the `setTimeout` guard,
`corsProxyExhausted` the one thrown after the proxied fetch also failed,
`fallbackNoProxy` the one thrown when the direct fetch failed and no proxy
string was configured. -/
inductive FetchErr where
  | timeout
  | corsProxyExhausted
  | fallbackNoProxy
deriving Repr, DecidableEq

/-- Observable I/O actions of one resolver run: a `fetch(url, ...)` request,
or starting an in-memory image-element load. -/
inductive IOEv where
  | fetchReq (url : String)
  | imageLoad (src : String)
deriving Repr, DecidableEq

/-- The load/error signal of the in-memory image element on the raster path:
`fired d` is the `onload` handler with `d` the outcome of
decode + draw + `toDataURL` (`none` when that throws), `errored` is the
`onerror` handler. -/
inductive LoadSig where
  | fired (decoded : Option String)
  | errored
deriving Repr, DecidableEq

/-- The environment of one resolver call: the outcome of every external
effect the code may perform.
* `fetchAsDataURL u` — outcome of `fetchBlobAsDataURL(u)`: `some v` when the
  fetch, blob read and `data:image/` validation all succeed with value `v`,
  `none` on any failure of that chain;
* `svgFetchText u` — outcome of the text fetch on the vector path;
* `encodeURIComponent` — the text encoder used when wrapping vector text;
* `signal` — `some (t, s)` when the image element fires its load/error
  signal `s` at time `t` (milliseconds), `none` when it never fires. -/
structure ImgEnv where
  fetchAsDataURL : String → Option String
  svgFetchText : String → Option String
  encodeURIComponent : String → String
  signal : Option (Nat × LoadSig)

/-- The constant `timeout = 5000` of `fetchImage`. -/
def timeoutMs : Nat := 5000

/-- `options.useProxy.replace(/\/$/, "")`: drop one trailing slash. -/
def stripTrailingSlash (s : String) : String :=
  if strEndsWith s ("/") then strDropLast s else s

/-- Recognized option keys of the resolvers: `useProxy` (proxy base string,
absent or the empty string count as not configured, mirroring JavaScript
truthiness) and `skipInline` (cache-warm-only mode). -/
structure ResolveOpts where
  useProxy : Option String
  skipInline : Bool
deriving Repr, DecidableEq

/-- `fetchWithFallback(url)`: try the direct fetch-and-convert; on failure,
when a (non-empty) proxy base string is configured, retry against the proxy
base with one trailing slash stripped concatenated with the encoded url;
errors distinguish proxy exhaustion from the no-proxy case.  `encode` is the
`safeEncodeURI` helper. -/
def fetchWithFallback (env : ImgEnv) (useProxy : Option String)
    (encode : String → String) (url : String) :
    Except FetchErr String × List IOEv :=
  match env.fetchAsDataURL url with
  | some v => (.ok v, [.fetchReq url])
  | none =>
    match useProxy with
    | some p =>
      if p = ("") then (.error .fallbackNoProxy, [.fetchReq url])
      else
        let proxied := stripTrailingSlash p ++ encode url
        match env.fetchAsDataURL proxied with
        | some v => (.ok v, [.fetchReq url, .fetchReq proxied])
        | none => (.error .corsProxyExhausted, [.fetchReq url, .fetchReq proxied])
    | none => (.error .fallbackNoProxy, [.fetchReq url])

/-- The regex `/\.svg(\?.*)?$/i`: the source matches when it ends in `.svg`
(case-insensitively) or contains `.svg?` anywhere. -/
def isSvgUrl (s : String) : Bool :=
  let l := strToLower s
  strEndsWith l (".svg") || strContains l (".svg?")

/-- Result of one `fetchImage` run: the settled promise, the cache after all
handlers (including ones that fire after the timeout already rejected the
promise) have run, and the trace of I/O actions performed. -/
structure FetchOut where
  result : Except FetchErr String
  cache : Cache
  io : List IOEv

/-- The body of the `onload`/`onerror` handler on the raster path: `onload`
with a successful decode caches and resolves the PNG data URL; a decode
failure or `onerror` runs `fetchWithFallback`, caching on its success.
This runs whenever the signal fires, whether or not the timeout already
rejected the promise (the source installs no guard against that). -/
def rasterHandler (env : ImgEnv) (useProxy : Option String)
    (encode : String → String) (cache : Cache) (src : String)
    (sig : LoadSig) : Except FetchErr String × Cache × List IOEv :=
  match sig with
  | .fired (some d) => (.ok d, { cache with image := setA cache.image src d }, [])
  | .fired none =>
    match fetchWithFallback env useProxy encode src with
    | (.ok v, tr) => (.ok v, { cache with image := setA cache.image src v }, tr)
    | (.error e, tr) => (.error e, cache, tr)
  | .errored =>
    match fetchWithFallback env useProxy encode src with
    | (.ok v, tr) => (.ok v, { cache with image := setA cache.image src v }, tr)
    | (.error e, tr) => (.error e, cache, tr)

/-- `fetchImage(src, options)`: cache check by raw `src`; identity on
`data:image/` references; text-fetch-and-wrap on vector (`.svg`) references
(falling back to `fetchWithFallback`, without caching, on failure); otherwise
the raster path with its 5000 ms timeout guard.  The returned cache is the
state after every handler has run; the returned result is the value the
promise settled with (the timeout rejection wins when the signal fires at or
after `timeoutMs`). -/
def fetchImage (env : ImgEnv) (encode : String → String)
    (opts : ResolveOpts) (cache : Cache) (src : String) : FetchOut :=
  if hasA cache.image src then
    ⟨.ok ((getA cache.image src).getD ("")), cache, []⟩
  else if strStartsWith src ("data:image/") then
    ⟨.ok src, { cache with image := setA cache.image src src }, []⟩
  else if isSvgUrl src then
    match env.svgFetchText src with
    | some text =>
      let enc := ("data:image/svg+xml;charset=utf-8,") ++ env.encodeURIComponent text
      ⟨.ok enc, { cache with image := setA cache.image src enc }, [.fetchReq src]⟩
    | none =>
      match fetchWithFallback env opts.useProxy encode src with
      | (r, tr) => ⟨r, cache, [.fetchReq src] ++ tr⟩
  else
    match env.signal with
    | none => ⟨.error .timeout, cache, [.imageLoad src]⟩
    | some (t, sig) =>
      match rasterHandler env opts.useProxy encode cache src sig with
      | (r, c, tr) =>
        if t < timeoutMs then ⟨r, c, [.imageLoad src] ++ tr⟩
        else ⟨.error .timeout, c, [.imageLoad src] ++ tr⟩

/-! ### Background entry resolver (`inlineSingleBackgroundEntry`) -/

/-- The regex `/^((repeating-)?(linear|radial|conic)-gradient)\(/i`. -/
def isGradientEntry (entry : String) : Bool :=
  let l := strToLower entry
  ([("linear-gradient("), ("radial-gradient("), ("conic-gradient("),
    ("repeating-linear-gradient("), ("repeating-radial-gradient("),
    ("repeating-conic-gradient(")]).any (fun p => strStartsWith l p)

/-- Result of one `inlineSingleBackgroundEntry` run: the settled promise
(`.ok none` models the `void 0` return of cache-warm-only mode) and the
cache afterwards. -/
structure BgOut where
  result : Except FetchErr (Option String)
  cache : Cache

/-- `inlineSingleBackgroundEntry(entry, options)`: extract a URL payload
(`extractURL`, a collaborator, is passed in); with a (non-empty) payload,
consult the `background` namespace under the encoded form — a hit returns
`url(<cached>)` (no replacement in cache-warm-only mode), a miss delegates
to `fetchImage`, stores the result and returns `url("<data>")`; without a
payload the entry (gradient, `none`, or anything else) passes through
unchanged. -/
def inlineSingleBackgroundEntry (env : ImgEnv)
    (extractURL : String → Option String) (encode : String → String)
    (opts : ResolveOpts) (cache : Cache) (entry : String) : BgOut :=
  let rawUrl := extractURL entry
  let isGradient := isGradientEntry entry
  match rawUrl with
  | some u =>
    if u = ("") then
      -- an empty extracted payload is falsy in the source and falls through
      -- to the pass-through returns below
      ⟨.ok (some entry), cache⟩
    else
      let encodedUrl := encode u
      if hasA cache.background encodedUrl then
        ⟨.ok (if opts.skipInline then none
              else some (("url(") ++ (getA cache.background encodedUrl).getD ("") ++ (")"))),
         cache⟩
      else
        match fetchImage env encode opts cache encodedUrl with
        | ⟨.error e, c, _⟩ => ⟨.error e, c⟩
        | ⟨.ok d, c, _⟩ =>
          ⟨.ok (if opts.skipInline then none
                else some (("url(\"") ++ d ++ ("\")"))),
           { c with background := setA c.background encodedUrl d }⟩
  | none =>
    if isGradient || entry = ("none") then ⟨.ok (some entry), cache⟩
    else ⟨.ok (some entry), cache⟩

/-! ### Helper lemmas about `fetchWithFallback` -/

/-- When the direct fetch-and-convert succeeds, its value is returned. -/
theorem fetchWithFallback_direct {env : ImgEnv} {useProxy : Option String}
    {encode : String → String} {url v : String}
    (h : env.fetchAsDataURL url = some v) :
    (fetchWithFallback env useProxy encode url).1 = .ok v := by
  unfold fetchWithFallback
  rw [h]

/-- When the direct fetch fails and a non-empty proxy base is configured,
the value fetched from the proxied address (trailing slash stripped,
concatenated with the encoded url) is returned. -/
theorem fetchWithFallback_proxied {env : ImgEnv} {useProxy : Option String}
    {encode : String → String} {url p v : String}
    (h : env.fetchAsDataURL url = none) (hp : useProxy = some p)
    (hpne : ¬ p = (""))
    (h2 : env.fetchAsDataURL (stripTrailingSlash p ++ encode url) = some v) :
    (fetchWithFallback env useProxy encode url).1 = .ok v := by
  unfold fetchWithFallback
  rw [h, hp]
  simp only [hpne, if_false, h2]

/-- When the direct and the proxied fetch both fail, the proxy-exhaustion
error is raised. -/
theorem fetchWithFallback_exhausted {env : ImgEnv} {useProxy : Option String}
    {encode : String → String} {url p : String}
    (h : env.fetchAsDataURL url = none) (hp : useProxy = some p)
    (hpne : ¬ p = (""))
    (h2 : env.fetchAsDataURL (stripTrailingSlash p ++ encode url) = none) :
    (fetchWithFallback env useProxy encode url).1 = .error .corsProxyExhausted := by
  unfold fetchWithFallback
  rw [h, hp]
  simp only [hpne, if_false, h2]

/-- On the raster path with a load/decode failure signalled before the
timeout, `fetchImage` settles with exactly the `fetchWithFallback` result. -/
theorem fetchImage_raster_fallback {env : ImgEnv} {encode : String → String}
    {opts : ResolveOpts} {cache : Cache} {src : String} {t : Nat}
    {sig : LoadSig}
    (h1 : hasA cache.image src = false)
    (h2 : strStartsWith src ("data:image/") = false)
    (h3 : isSvgUrl src = false)
    (h4 : env.signal = some (t, sig))
    (h5 : t < timeoutMs)
    (h6 : sig = .errored ∨ sig = .fired none) :
    (fetchImage env encode opts cache src).result
      = (fetchWithFallback env opts.useProxy encode src).1 := by
  unfold fetchImage
  rw [h4]
  simp only [h1, h2, h3, Bool.false_eq_true, if_false]
  rcases hf : fetchWithFallback env opts.useProxy encode src with ⟨r, tr⟩
  rcases h6 with h6 | h6 <;> subst h6 <;>
    simp [rasterHandler, hf, h5] <;> cases r <;> simp


/-! ### Concrete environments used by the resolver claims -/

/-- Inert environment: every external effect fails / never fires. -/
def env0 : ImgEnv := ⟨fun _ => none, fun _ => none, id, none⟩

/-- Claim C5: for every sourceRef already present in the image cache
namespace, `fetchImage` returns the cached value immediately, leaves the
cache unchanged, and performs no network or decoding I/O (empty I/O trace). -/
theorem fetchImage_cache_hit_no_io (env : ImgEnv) (encode : String → String)
    (opts : ResolveOpts) (cache : Cache) (src v : String)
    (h : getA cache.image src = some v) :
    fetchImage env encode opts cache src = ⟨.ok v, cache, []⟩ := by
  have hh : hasA cache.image src = true := by simp [hasA, h]
  unfold fetchImage
  simp [hh, h]

/-- Witness for `fetchImage_cache_hit_no_io` at a concrete cached entry. -/
theorem fetchImage_cache_hit_no_io_witness :
    fetchImage env0 id ⟨none, false⟩ ⟨[(("http://a/pic.png"), ("data:image/png;base64,AA"))], [], []⟩
        ("http://a/pic.png")
      = ⟨.ok ("data:image/png;base64,AA"),
         ⟨[(("http://a/pic.png"), ("data:image/png;base64,AA"))], [], []⟩, []⟩ :=
  fetchImage_cache_hit_no_io env0 id ⟨none, false⟩ _ _ _ rfl

/-- Environment for the C6 counterexample: the load signal fires at
6000 ms — after the 5000 ms timeout already rejected the promise — and its
decode succeeds. -/
def env6 : ImgEnv :=
  ⟨fun _ => none, fun _ => none, id,
   some (6000, .fired (some ("data:image/png;base64,ZZ")))⟩

/-- Counterexample to claim C6 as stated: an uncached raster sourceRef whose
load signal does not fire within 5000 ms (it fires at 6000 ms) makes
`fetchImage` fail with the Timeout error, yet the image cache afterwards
does contain an entry for the sourceRef — the handler still runs after the
timeout and caches its result. -/
theorem fetchImage_late_signal_caches_after_timeout :
    (fetchImage env6 id ⟨none, false⟩ Cache.empty ("http://a/img.png")).result
        = .error .timeout ∧
    hasA (fetchImage env6 id ⟨none, false⟩ Cache.empty ("http://a/img.png")).cache.image
        ("http://a/img.png") = true := by
  constructor <;> rfl

/-- Claim C6 (amended): for an uncached raster sourceRef whose load/error
signals never fire within 5000 ms, `fetchImage` fails with the Timeout
error; and when the signals never fire at all, the cache is left unchanged
(so the sourceRef is never cached).  The amendment is forced by
`fetchImage_late_signal_caches_after_timeout`: a signal firing after the
timeout still caches its result. -/
theorem fetchImage_timeout_never_cached (env : ImgEnv)
    (encode : String → String) (opts : ResolveOpts) (cache : Cache)
    (src : String)
    (h1 : hasA cache.image src = false)
    (h2 : strStartsWith src ("data:image/") = false)
    (h3 : isSvgUrl src = false)
    (h4 : ∀ t sig, env.signal = some (t, sig) → timeoutMs ≤ t) :
    (fetchImage env encode opts cache src).result = .error .timeout ∧
    (env.signal = none → (fetchImage env encode opts cache src).cache = cache) := by
  unfold fetchImage
  simp only [h1, h2, h3, Bool.false_eq_true, if_false]
  cases hs : env.signal with
  | none => exact ⟨rfl, fun _ => rfl⟩
  | some ts =>
    obtain ⟨t, sig⟩ := ts
    have hlt : ¬ t < timeoutMs := not_lt.mpr (h4 t sig hs)
    refine ⟨by simp [hlt], fun hnone => absurd hnone (by simp)⟩

/-- Witness for `fetchImage_timeout_never_cached`: signals never fire. -/
theorem fetchImage_timeout_never_cached_witness :
    (fetchImage env0 id ⟨none, false⟩ Cache.empty ("http://a/img.png")).result
        = .error .timeout ∧
    (fetchImage env0 id ⟨none, false⟩ Cache.empty ("http://a/img.png")).cache
        = Cache.empty := by
  have h := fetchImage_timeout_never_cached env0 id ⟨none, false⟩ Cache.empty
    ("http://a/img.png") rfl rfl rfl (fun t sig hts => by cases hts)
  exact ⟨h.1, h.2 rfl⟩

/-- Fetch oracle for the C4 counterexample: fails on the sourceRef, succeeds
with different payloads on the proxy address the code actually builds
(trailing slash of the base stripped) and on the address the claim
describes (plain concatenation). -/
def fb4 : String → Option String := fun u =>
  if u = ("http://proxyhttp://img/a.png") then some ("data:image/png;actual")
  else if u = ("http://proxy/http://img/a.png") then some ("data:image/png;claimed")
  else none

/-- Environment for the C4 counterexample: the in-memory load errors
immediately, forcing the fallback path. -/
def env4 : ImgEnv := ⟨fb4, fun _ => none, id, some (0, .errored)⟩

/-- Counterexample to claim C4 as stated: with the proxy base
`http://proxy/` (trailing slash), the direct fetch failing, and the in-memory
load failing, `fetchImage` does not return the value fetched from the proxy
base concatenated with the url-encoded sourceRef (`data:image/png;claimed`);
it returns the value fetched from the base with its trailing slash stripped
(`data:image/png;actual`). -/
theorem fetchImage_proxy_strips_trailing_slash :
    fb4 (("http://proxy/") ++ ("http://img/a.png")) = some ("data:image/png;claimed") ∧
    (fetchImage env4 id ⟨some ("http://proxy/"), false⟩ Cache.empty
        ("http://img/a.png")).result = .ok ("data:image/png;actual") ∧
    ¬ (("data:image/png;actual") = ("data:image/png;claimed")) := by
  refine ⟨rfl, rfl, by decide⟩

/-- Claim C4 (amended): for a raster sourceRef whose in-memory image load or
decode fails before the timeout, `fetchImage` (a) returns the
fetched-and-converted value when the direct fetch succeeds; (b) when the
direct fetch fails and a non-empty proxy base string is configured, returns
the value fetched from the proxy base — with a single trailing slash, if
any, removed — concatenated with the url-encoded sourceRef; (c) when that
also fails, fails with the error identifying CORS/proxy exhaustion.  The
slash amendment is forced by `fetchImage_proxy_strips_trailing_slash`. -/
theorem fetchImage_fallback_escalation (env : ImgEnv)
    (encode : String → String) (opts : ResolveOpts) (cache : Cache)
    (src : String) (t : Nat) (sig : LoadSig)
    (h1 : hasA cache.image src = false)
    (h2 : strStartsWith src ("data:image/") = false)
    (h3 : isSvgUrl src = false)
    (h4 : env.signal = some (t, sig))
    (h5 : t < timeoutMs)
    (h6 : sig = .errored ∨ sig = .fired none) :
    (∀ v, env.fetchAsDataURL src = some v →
      (fetchImage env encode opts cache src).result = .ok v) ∧
    (∀ p v, env.fetchAsDataURL src = none → opts.useProxy = some p →
      ¬ p = ("") →
      env.fetchAsDataURL (stripTrailingSlash p ++ encode src) = some v →
      (fetchImage env encode opts cache src).result = .ok v) ∧
    (∀ p, env.fetchAsDataURL src = none → opts.useProxy = some p →
      ¬ p = ("") →
      env.fetchAsDataURL (stripTrailingSlash p ++ encode src) = none →
      (fetchImage env encode opts cache src).result
        = .error .corsProxyExhausted) := by
  have hfb := @fetchImage_raster_fallback env encode opts cache src t sig h1 h2 h3 h4 h5 h6
  refine ⟨fun v hv => ?_, fun p v hd hp hpne hprox => ?_, fun p hd hp hpne hprox => ?_⟩
  · rw [hfb, fetchWithFallback_direct hv]
  · rw [hfb, fetchWithFallback_proxied hd hp hpne hprox]
  · rw [hfb, fetchWithFallback_exhausted hd hp hpne hprox]

/-- Fetch oracle for the C4 witness: the direct fetch fails, the proxied
fetch succeeds. -/
def fb4w : String → Option String := fun u =>
  if u = ("http://proxyhttp://img/a.png") then some ("data:image/png;prox")
  else none

/-- Environment for the C4 witness. -/
def env4w : ImgEnv := ⟨fb4w, fun _ => none, id, some (0, .errored)⟩

/-- Witness for `fetchImage_fallback_escalation`: the proxied branch at a
concrete input. -/
theorem fetchImage_fallback_escalation_witness :
    (fetchImage env4w id ⟨some ("http://proxy"), false⟩ Cache.empty
        ("http://img/a.png")).result = .ok ("data:image/png;prox") := by
  have h := fetchImage_fallback_escalation env4w id ⟨some ("http://proxy"), false⟩
    Cache.empty ("http://img/a.png") 0 .errored rfl rfl rfl rfl (by decide)
    (Or.inl rfl)
  exact h.2.1 ("http://proxy") ("data:image/png;prox") rfl rfl (by decide) rfl

/-- Environment for the C3 theorems: the raster load succeeds at once and
decodes to a fixed PNG data URL. -/
def env3 : ImgEnv :=
  ⟨fun _ => none, fun _ => none, id,
   some (0, .fired (some ("data:image/png;base64,AA")))⟩

/-- URL extractor for the C3 theorems. -/
def extract3 : String → Option String := fun _ => some ("http://x/bg.png")

/-- Counterexample to claim C3 as stated: for a background entry with a URL
payload, not in cache-warm-only mode, the initial cache-miss call returns
the string with the embedded data wrapped in double quotes, while the later
cache-hit call returns it without quotes — the two returned values are not
equal. -/
theorem resolveEntry_hit_differs_from_miss :
    (inlineSingleBackgroundEntry env3 extract3 id ⟨none, false⟩ Cache.empty
        ("url(http://x/bg.png)")).result
      = .ok (some ("url(\"data:image/png;base64,AA\")")) ∧
    (inlineSingleBackgroundEntry env3 extract3 id ⟨none, false⟩
        (inlineSingleBackgroundEntry env3 extract3 id ⟨none, false⟩ Cache.empty
          ("url(http://x/bg.png)")).cache
        ("url(http://x/bg.png)")).result
      = .ok (some ("url(data:image/png;base64,AA)")) ∧
    ¬ (("url(\"data:image/png;base64,AA\")")
        = ("url(data:image/png;base64,AA)")) := by
  refine ⟨rfl, rfl, by decide⟩

/-- Claim C3 (amended): for every background entry with a (non-empty) URL
payload, when not in cache-warm-only mode, the initial cache-miss call
returns `url("<embedded-data>")` — the embedded data wrapped in double
quotes — and any later call hitting the background cache returns
`url(<embedded-data>)` with the identical embedded payload but without the
quotes; the two values agree up to those quotes but are not string-equal
(forced by `resolveEntry_hit_differs_from_miss`). -/
theorem resolveEntry_hit_unquotes_cached_payload (env : ImgEnv)
    (extractURL : String → Option String) (encode : String → String)
    (useProxy : Option String) (cache : Cache) (entry u d : String)
    (h0 : extractURL entry = some u) (hu : ¬ u = (""))
    (hmiss : hasA cache.background (encode u) = false)
    (hfetch : (fetchImage env encode ⟨useProxy, false⟩ cache (encode u)).result
        = .ok d) :
    (inlineSingleBackgroundEntry env extractURL encode ⟨useProxy, false⟩
        cache entry).result
      = .ok (some (("url(\"") ++ d ++ ("\")"))) ∧
    (inlineSingleBackgroundEntry env extractURL encode ⟨useProxy, false⟩
        (inlineSingleBackgroundEntry env extractURL encode ⟨useProxy, false⟩
          cache entry).cache entry).result
      = .ok (some (("url(") ++ d ++ (")"))) := by
  rcases hfi : fetchImage env encode ⟨useProxy, false⟩ cache (encode u)
    with ⟨r, c, io⟩
  have hr : r = .ok d := by rw [hfi] at hfetch; exact hfetch
  subst hr
  have hfirst : inlineSingleBackgroundEntry env extractURL encode
      ⟨useProxy, false⟩ cache entry
      = ⟨.ok (some (("url(\"") ++ d ++ ("\")"))),
         { c with background := setA c.background (encode u) d }⟩ := by
    unfold inlineSingleBackgroundEntry
    rw [h0]
    simp only [hu, if_false, hmiss, Bool.false_eq_true, hfi]
  refine ⟨by rw [hfirst], ?_⟩
  rw [hfirst]
  unfold inlineSingleBackgroundEntry
  rw [h0]
  have hhit : hasA (setA c.background (encode u) d) (encode u) = true := by
    simp [hasA, getA_setA_self]
  have hget : getA (setA c.background (encode u) d) (encode u) = some d :=
    getA_setA_self c.background (encode u) d
  simp only [hu, if_false, hhit, if_true, hget]
  rfl

/-- Witness for `resolveEntry_hit_unquotes_cached_payload` at the concrete
C3 input. -/
theorem resolveEntry_hit_unquotes_cached_payload_witness :
    (inlineSingleBackgroundEntry env3 extract3 id ⟨none, false⟩ Cache.empty
        ("url(http://x/bg.png)")).result
      = .ok (some (("url(\"") ++ ("data:image/png;base64,AA") ++ ("\")"))) ∧
    (inlineSingleBackgroundEntry env3 extract3 id ⟨none, false⟩
        (inlineSingleBackgroundEntry env3 extract3 id ⟨none, false⟩ Cache.empty
          ("url(http://x/bg.png)")).cache
        ("url(http://x/bg.png)")).result
      = .ok (some (("url(") ++ ("data:image/png;base64,AA") ++ (")"))) :=
  resolveEntry_hit_unquotes_cached_payload env3 extract3 id none Cache.empty
    ("url(http://x/bg.png)") ("http://x/bg.png") ("data:image/png;base64,AA")
    rfl (by decide) rfl rfl

/-- Claim C8: for every background entry without a URL payload (the
extractor returns nothing, or an empty — falsy — payload), the resolver
returns the entry unchanged wrapped in a successful result (it never
raises), and the cache — in particular the background namespace — is
untouched.  This covers gradients, the literal `none`, and arbitrary
unrecognized syntax alike. -/
theorem inlineSingleBackgroundEntry_passthrough (env : ImgEnv)
    (extractURL : String → Option String) (encode : String → String)
    (opts : ResolveOpts) (cache : Cache) (entry : String)
    (h : extractURL entry = none ∨ extractURL entry = some ("")) :
    inlineSingleBackgroundEntry env extractURL encode opts cache entry
      = ⟨.ok (some entry), cache⟩ := by
  unfold inlineSingleBackgroundEntry
  rcases h with h | h
  · rw [h]
    by_cases hg : (isGradientEntry entry || entry = ("none")) = true
    · simp [hg]
    · simp [hg]
  · rw [h]
    simp

/-- Witness for `inlineSingleBackgroundEntry_passthrough`: a gradient entry
with no URL payload passes through unchanged on an inert environment. -/
theorem inlineSingleBackgroundEntry_passthrough_witness :
    inlineSingleBackgroundEntry env0 (fun _ => none) id ⟨none, false⟩
        Cache.empty ("linear-gradient(red, blue)")
      = ⟨.ok (some ("linear-gradient(red, blue)")), Cache.empty⟩ :=
  inlineSingleBackgroundEntry_passthrough env0 (fun _ => none) id
    ⟨none, false⟩ Cache.empty ("linear-gradient(red, blue)") (Or.inl rfl)

/-! ### Plugin registry and hook runner (`src/core/plugins.js`)

A plugin carries a unique `name`, an `options` configuration object
(modelled as a string-keyed record with integer values) and its lifecycle
hook functions, modelled as state transformers over a hook-state type `σ`
(the mutable capture context the source passes to every hook).  The module
registry `pluginRegistry` is passed explicitly. -/

structure Plugin (σ : Type) where
  name : String
  options : List (String × Int)
  hooks : List (String × (σ → σ))

/-- One element of the `plugins` array handed to `normalizePlugins`: a bare
name string, a plugin object, or anything else (skipped by the source). -/
inductive PluginEntry (σ : Type) where
  | ref (s : String)
  | obj (p : Plugin σ)
  | invalid

/-- The module-level `pluginRegistry` map. -/
def Registry (σ : Type) : Type := List (String × Plugin σ)

/-- `pluginRegistry.get(name)`. -/
def regGet {σ : Type} (reg : Registry σ) (n : String) : Option (Plugin σ) :=
  getA reg n

/-- `use(plugin)`: reject a plugin whose `name` is missing (falsy), else
store it under its name, overwriting any earlier registration of it. -/
def use {σ : Type} (reg : Registry σ) (p : Plugin σ) :
    Except String (Registry σ) :=
  if p.name = ("") then .error ("Plugin name is required")
  else .ok (setA reg p.name p)

/-- Field lookup on an options object. -/
def lookupField (l : List (String × Int)) (k : String) : Option Int :=
  List.lookup k l

/-- JavaScript object spread `\x7b...base, ...override\x7d` on options
objects: keys of `base` keep their position, overridden values win, new
keys of `ov` are appended. -/
def spreadMerge (base ov : List (String × Int)) : List (String × Int) :=
  base.map (fun kv =>
    match lookupField ov kv.1 with
    | some v => (kv.1, v)
    | none => kv)
    ++ ov.filter (fun kv => (lookupField base kv.1).isNone)

/-- The merged plugin the source builds for an inline object that overrides
a registered plugin of the same name: every field of the base, with only
`options` replaced by the field-level merge. -/
def mergeOnto {σ : Type} (base p : Plugin σ) : Plugin σ :=
  { base with options := spreadMerge base.options p.options }

/-- Normalization of one entry of the plugin list: a string resolves
against the registry (dropped when unknown); an object with a (truthy)
name merges onto a registered base of the same name, or is used as-is;
anything else is dropped. -/
def normOne {σ : Type} (reg : Registry σ) (e : PluginEntry σ) :
    Option (Plugin σ) :=
  match e with
  | .ref s => regGet reg s
  | .obj p =>
    if p.name = ("") then none
    else
      match regGet reg p.name with
      | some base => some (mergeOnto base p)
      | none => some p
  | .invalid => none

/-- `normalizePlugins(plugins, debug)`: the source's accumulation loop,
written as structural recursion producing the same list.  The `debug` flag
only gates console warnings and has no semantic effect. -/
def normalizePlugins {σ : Type} (reg : Registry σ) (debug : Bool) :
    List (PluginEntry σ) → List (Plugin σ)
  | [] => []
  | e :: rest =>
    match normOne reg e with
    | some p => p :: normalizePlugins reg debug rest
    | none => normalizePlugins reg debug rest

/-- `plugin[hookName]` followed by the `typeof === "function"` check. -/
def getHookFn {σ : Type} (p : Plugin σ) (hookName : String) : Option (σ → σ) :=
  List.lookup hookName p.hooks

/-- One iteration of `runHook`'s loop: await the plugin's hook on the
shared context when present. -/
def applyHook {σ : Type} (hookName : String) (s : σ) (p : Plugin σ) : σ :=
  match getHookFn p hookName with
  | some f => f s
  | none => s

/-- The context fields `runHook` reads: the plugin entry list
(`context.plugins`), the debug flag (`context.options?.debug`) and the
mutable state the hooks transform. -/
structure HookCtx (σ : Type) where
  plugins : List (PluginEntry σ)
  debug : Bool
  store : σ

/-- `runHook(hookName, context)`: normalize the context's plugin list once,
then invoke each plugin's function bound to the hook name, in list order,
one at a time, each on the state left by the previous one. -/
def runHook {σ : Type} (reg : Registry σ) (hookName : String)
    (ctx : HookCtx σ) : σ :=
  (normalizePlugins reg ctx.debug ctx.plugins).foldl (applyHook hookName)
    ctx.store

/-- Normalization processes a concatenation of entry lists piecewise. -/
theorem normalizePlugins_append {σ : Type} (reg : Registry σ) (debug : Bool)
    (l1 l2 : List (PluginEntry σ)) :
    normalizePlugins reg debug (l1 ++ l2)
      = normalizePlugins reg debug l1 ++ normalizePlugins reg debug l2 := by
  induction l1 with
  | nil => simp [normalizePlugins]
  | cons e rest ih =>
    cases h : normOne reg e with
    | none => simp [normalizePlugins, h, ih]
    | some p => simp [normalizePlugins, h, ih]

/-- Claim C7: `runHook` invokes the hook of every plugin of the normalized
list strictly sequentially in list order, awaiting each before the next:
for any split of the plugin list, the hooks of the second part run on
exactly the context state produced by running the hooks of the first part,
so every mutation an earlier plugin makes to the shared context is visible
to every later plugin's hook. -/
theorem runHook_sequential_visibility {σ : Type} (reg : Registry σ)
    (hookName : String) (debug : Bool) (s : σ)
    (es1 es2 : List (PluginEntry σ)) :
    runHook reg hookName ⟨es1 ++ es2, debug, s⟩
      = runHook reg hookName ⟨es2, debug, runHook reg hookName ⟨es1, debug, s⟩⟩ := by
  unfold runHook
  rw [normalizePlugins_append, List.foldl_append]

/-- The global registration of claim C9: plugin `x` with configuration
`a = 1` and no hooks. -/
def basePluginX : Plugin Nat := ⟨("x"), [(("a"), 1)], []⟩

/-- The local override of claim C9: name `x`, configuration `b = 2`. -/
def overridePluginX : Plugin Nat := ⟨("x"), [(("b"), 2)], []⟩

/-- Claim C9: registering the global plugin `x` with configuration `a = 1`
and then normalizing the local override with configuration `b = 2` yields
one effective plugin whose configuration is `a = 1, b = 2` — base fields
kept, override fields merged in, with override precedence field by field. -/
theorem normalizePlugins_override_merge_example :
    use ([] : Registry Nat) basePluginX = .ok [(("x"), basePluginX)] ∧
    normalizePlugins ([(("x"), basePluginX)] : Registry Nat) false
        [PluginEntry.obj overridePluginX]
      = [⟨("x"), [(("a"), 1), (("b"), 2)], []⟩] :=
  ⟨rfl, rfl⟩

/-- Claim C10: when `normalizePlugins` merges an inline plugin object onto
a globally registered plugin of the same name, the effective plugin is the
base registration with only its `options` field replaced by the field-level
merge — every other field of the inline object, including any hook
functions it defines, is ignored, and the result carries the base
registration's hook functions. -/
theorem normalizePlugins_inline_override_keeps_base_hooks {σ : Type}
    (reg : Registry σ) (debug : Bool) (p base : Plugin σ)
    (h1 : ¬ p.name = ("")) (h2 : regGet reg p.name = some base) :
    normalizePlugins reg debug [PluginEntry.obj p]
      = [{ base with options := spreadMerge base.options p.options }] := by
  simp [normalizePlugins, normOne, h1, h2, mergeOnto]

/-- Base registration for the C10 witness: it has its own `post-render`
hook. -/
def baseW10 : Plugin Nat :=
  ⟨("x"), [(("a"), 1)], [(("post-render"), fun n => n + 1)]⟩

/-- Inline override for the C10 witness: it carries different hook
functions, which must be ignored by the merge. -/
def inlineW10 : Plugin Nat :=
  ⟨("x"), [(("b"), 2)],
   [(("post-render"), fun n => n + 100), (("pre-clone"), fun n => n * 7)]⟩

/-- Witness for `normalizePlugins_inline_override_keeps_base_hooks`: the
effective plugin keeps the base's `post-render` hook and drops both hooks
of the inline object. -/
theorem normalizePlugins_inline_override_keeps_base_hooks_witness :
    normalizePlugins ([(("x"), baseW10)] : Registry Nat) false
        [PluginEntry.obj inlineW10]
      = [⟨("x"), [(("a"), 1), (("b"), 2)],
          [(("post-render"), fun n => n + 1)]⟩] := by
  have h := normalizePlugins_inline_override_keeps_base_hooks
    ([(("x"), baseW10)] : Registry Nat) false inlineW10 baseW10
    (by decide) rfl
  exact h.trans rfl

/-! ### Capture orchestrator (`captureDOM` in `src/core/capture.js`)

`captureDOM` validates its element, resets the cache, obtains the clone
from `prepareClone`, inlines images and backgrounds, optionally embeds
fonts and generates base CSS, builds the SVG data URL, and finally removes
the `snapdom-sandbox` element when it is present with absolute positioning.
Each stage is an awaited collaborator whose outcome the environment
supplies; a rejection propagates immediately, skipping everything after it.
The run additionally records a trace of the pipeline actions performed:
the event vocabulary includes hook-invocation events (`hookEv`) so that
claims about lifecycle hooks are expressible — the source of `captureDOM`
contains no call to `runHook`, and accordingly no construct of the
embedding emits such an event. -/

/-- Pipeline actions observable in one `captureDOM` run. -/
inductive CapEv where
  | cacheReset
  | prepareCloneEv
  | inlineImagesEv
  | inlineBackgroundsEv
  | embedFontsEv
  | baseCssEv
  | buildSvgEv
  | sandboxCleanupEv
  | hookEv (hookName : String)
deriving Repr, DecidableEq

/-- Whether an event is a lifecycle-hook invocation. -/
def CapEv.isHookEv : CapEv → Bool
  | .hookEv _ => true
  | _ => false

/-- The document state `captureDOM` can observe and mutate: the
`snapdom-sandbox` element's `style.position` when such an element exists. -/
structure Dom where
  sandbox : Option String
deriving Repr, DecidableEq

/-- Step 5 of the source: look the sandbox up; remove it only when it
exists and its position is `absolute`. -/
def removeSandboxIfAbsolute (d : Dom) : Dom :=
  match d.sandbox with
  | some pos => if pos = ("absolute") then ⟨none⟩ else d
  | none => d

/-- Outcomes of the awaited collaborators of one capture, plus the sandbox
state `prepareClone` leaves in the document (the staging container is
created inside `prepareClone`; whether the stage succeeds or throws, the
element it created stays in the document until someone removes it). -/
structure CapEnv where
  prepareClone : Except String (String × String)
  sandboxAfterPrepare : Option String
  inlineImages : Except String Unit
  inlineBackgroundImages : Except String Unit
  embedCustomFonts : Except String String
  generateBaseCSS : Except String String
  buildSVG : Except String String

/-- The option keys `captureDOM` branches on, plus the `plugins` list the
options may carry — which the source of `captureDOM` never reads. -/
structure CapOpts where
  embedFonts : Bool
  compress : Bool
  plugins : List String
deriving Repr, DecidableEq

/-- Result of one `captureDOM` run: the settled promise, the final document
state, and the trace of pipeline actions. -/
structure CapOut where
  result : Except String String
  dom : Dom
  trace : List CapEv

/-- An optional stage (fonts, base CSS): skipped when not requested,
otherwise its outcome with its trace event. -/
def condStage (enabled : Bool) (r : Except String String) (ev : CapEv) :
    Except (String × List CapEv) (String × List CapEv) :=
  if enabled then
    match r with
    | .ok v => .ok (v, [ev])
    | .error e => .error (e, [ev])
  else .ok ((""), [])

/-- `captureDOM(element, options)`.  The stages run in source order; a
throwing stage makes the whole call reject with that error immediately —
in particular the sandbox-cleanup step only runs after a successful SVG
build. -/
def captureDOM (env : CapEnv) (element : Option Unit) (opts : CapOpts)
    (dom0 : Dom) : CapOut :=
  match element with
  | none => ⟨.error ("Element cannot be null or undefined"), dom0, []⟩
  | some _ =>
    let t0 := [CapEv.cacheReset]
    let dom1 : Dom := ⟨env.sandboxAfterPrepare⟩
    match env.prepareClone with
    | .error e => ⟨.error e, dom1, t0 ++ [CapEv.prepareCloneEv]⟩
    | .ok _ =>
      let t1 := t0 ++ [CapEv.prepareCloneEv]
      match env.inlineImages with
      | .error e => ⟨.error e, dom1, t1 ++ [CapEv.inlineImagesEv]⟩
      | .ok _ =>
        let t2 := t1 ++ [CapEv.inlineImagesEv]
        match env.inlineBackgroundImages with
        | .error e => ⟨.error e, dom1, t2 ++ [CapEv.inlineBackgroundsEv]⟩
        | .ok _ =>
          let t3 := t2 ++ [CapEv.inlineBackgroundsEv]
          match condStage opts.embedFonts env.embedCustomFonts CapEv.embedFontsEv with
          | .error (e, evs) => ⟨.error e, dom1, t3 ++ evs⟩
          | .ok (_, evs4) =>
            let t4 := t3 ++ evs4
            match condStage opts.compress env.generateBaseCSS CapEv.baseCssEv with
            | .error (e, evs) => ⟨.error e, dom1, t4 ++ evs⟩
            | .ok (_, evs5) =>
              let t5 := t4 ++ evs5
              match env.buildSVG with
              | .error e => ⟨.error e, dom1, t5 ++ [CapEv.buildSvgEv]⟩
              | .ok dataURL =>
                let t6 := t5 ++ [CapEv.buildSvgEv]
                ⟨.ok dataURL, removeSandboxIfAbsolute dom1,
                 t6 ++ [CapEv.sandboxCleanupEv]⟩

/-- Environment of the C1 run: every collaborator succeeds, and the
staging container is present after `prepareClone`. -/
def envC1 : CapEnv :=
  ⟨.ok (("clone"), ("classCSS")), some ("absolute"), .ok (), .ok (),
   .ok ("fontsCSS"), .ok ("baseCSS"),
   .ok ("data:image/svg+xml;charset=utf-8,SVG")⟩

/-- Options of the C1 run: fonts and compression requested, and a plugin
present in the options — which `captureDOM` never consults. -/
def optsC1 : CapOpts := ⟨true, true, [("stamp")]⟩

/-- Claim C1 (evaluated at the failing input): a full successful capture
with a plugin configured runs the entire pipeline — validation, cache
reset, clone, image and background inlining, fonts, base CSS, SVG build,
sandbox cleanup — and its trace contains not a single lifecycle-hook
invocation event: `captureDOM` never calls `runHook`, so no pre-clone,
post-clone, pre-render, post-render or post-export hook is ever invoked at
any pipeline boundary. -/
theorem captureDOM_invokes_no_hooks :
    (captureDOM envC1 (some ()) optsC1 ⟨none⟩).result
        = .ok ("data:image/svg+xml;charset=utf-8,SVG") ∧
    ((captureDOM envC1 (some ()) optsC1 ⟨none⟩).trace.all
        (fun e => !e.isHookEv)) = true :=
  ⟨rfl, rfl⟩

/-- Environment of the C2 counterexample: the clone is prepared and the
staging container created (present with absolute position), every inlining
stage succeeds, but the SVG assembly stage throws. -/
def envC2 : CapEnv :=
  ⟨.ok (("clone"), ("classCSS")), some ("absolute"), .ok (), .ok (),
   .ok (""), .ok (""), .error ("assembly failed")⟩

/-- Counterexample to claim C2 as stated: the staging container was created
during the capture (it is present, with absolute position, after
`prepareClone`), the SVG build stage throws, and `captureDOM` propagates
the error while the final document still contains the sandbox — it is not
removed on this exit path. -/
theorem captureDOM_error_exit_keeps_sandbox :
    (captureDOM envC2 (some ()) ⟨false, false, []⟩ ⟨none⟩).result
        = .error ("assembly failed") ∧
    (captureDOM envC2 (some ()) ⟨false, false, []⟩ ⟨none⟩).dom
        = ⟨some ("absolute")⟩ :=
  ⟨rfl, rfl⟩

/-- Claim C2 (amended): the staging container is removed only on the
successful exit path — when every stage succeeds and the sandbox exists
with absolute position, `captureDOM` removes it before returning its
document reference; when a stage throws, no removal happens (forced by
`captureDOM_error_exit_keeps_sandbox`). -/
theorem captureDOM_success_removes_sandbox (env : CapEnv) (opts : CapOpts)
    (dom0 : Dom)
    (h1 : ∃ c, env.prepareClone = .ok c)
    (h2 : env.inlineImages = .ok ())
    (h3 : env.inlineBackgroundImages = .ok ())
    (h4 : ∃ s, env.embedCustomFonts = .ok s)
    (h5 : ∃ s, env.generateBaseCSS = .ok s)
    (h6 : ∃ u, env.buildSVG = .ok u)
    (h7 : env.sandboxAfterPrepare = some ("absolute")) :
    (∃ u, (captureDOM env (some ()) opts dom0).result = .ok u) ∧
    (captureDOM env (some ()) opts dom0).dom.sandbox = none := by
  obtain ⟨c, hc⟩ := h1
  obtain ⟨sf, hf⟩ := h4
  obtain ⟨sb, hb⟩ := h5
  obtain ⟨u, hu⟩ := h6
  constructor
  · refine ⟨u, ?_⟩
    cases hef : opts.embedFonts <;> cases hcp : opts.compress <;>
      simp [captureDOM, condStage, hc, h2, h3, hf, hb, hu, hef, hcp]
  · cases hef : opts.embedFonts <;> cases hcp : opts.compress <;>
      simp [captureDOM, condStage, hc, h2, h3, hf, hb, hu, hef, hcp,
        removeSandboxIfAbsolute, h7]

/-- Environment of the C2 witness: every stage succeeds with the sandbox
created. -/
def envC2w : CapEnv :=
  ⟨.ok (("clone"), ("cls")), some ("absolute"), .ok (), .ok (), .ok ("f"),
   .ok ("b"), .ok ("du")⟩

/-- Witness for `captureDOM_success_removes_sandbox` at a concrete
all-success run. -/
theorem captureDOM_success_removes_sandbox_witness :
    (∃ u, (captureDOM envC2w (some ()) ⟨true, false, []⟩
        ⟨some ("absolute")⟩).result = .ok u) ∧
    (captureDOM envC2w (some ()) ⟨true, false, []⟩
        ⟨some ("absolute")⟩).dom.sandbox = none :=
  captureDOM_success_removes_sandbox envC2w ⟨true, false, []⟩
    ⟨some ("absolute")⟩ ⟨(("clone"), ("cls")), rfl⟩ rfl rfl ⟨("f"), rfl⟩
    ⟨("b"), rfl⟩ ⟨("du"), rfl⟩ rfl
